import Mathlib

/-!
# Verification of the Rampage-films dubbing pipeline

Shallow embedding, in Lean 4, of the pure decision logic of the dubbing
pipeline (`src/edge_tts_dub.py`, `src/smart_diarize.py`,
`src/server/tts/segment_assembler.py`, `src/server/tts/translate.py`,
`src/server/tts/voice_selector.py`).

External effects (subprocess calls to ffmpeg/ffprobe, the network TTS and
translation services, and the filesystem) are modelled by explicit oracle
environments: a record of functions that gives, for each path or call, the
outcome the external world would produce.  All arithmetic on durations,
pitches and ratios is carried out in `ℚ`, the exact idealisation of the
Python floats.
-/

namespace Rampage

/-! ## Python string primitives

Helpers mirroring the Python `str` methods used by the code:
`str.strip()`, `str.lower()` (ASCII), `str.split`, and `int(...)` parsing.
-/

/-- Python `\s` / `str.strip()` whitespace set (ASCII). -/
def isPyWS (c : Char) : Bool :=
  c = ' ' || c = '\t' || c = '\n' || c = '\r' ||
  c = Char.ofNat 11 || c = Char.ofNat 12

/-- Python `str.strip()` on a list of characters. -/
def pyStripL (s : List Char) : List Char :=
  ((s.dropWhile isPyWS).reverse.dropWhile isPyWS).reverse

/-- Python `str.strip()`. -/
def pyStrip (s : String) : String :=
  ⟨pyStripL s.toList⟩

/-- Decimal digit test `'0' ≤ c ≤ '9'`, Python's `\d` (ASCII). -/
def isDigitCh (c : Char) : Bool :=
  '0' ≤ c && c ≤ '9'

/-- Value of a list of decimal digits. -/
def digitsVal (ds : List Char) : Nat :=
  ds.foldl (fun a c => 10 * a + (c.toNat - '0'.toNat)) 0

/-- Python `int(s)` restricted to the shapes the repo feeds it:
an optional sign followed by decimal digits.  Returns `none` where Python
would raise `ValueError`. -/
def pyParseInt (s : String) : Option Int :=
  match s.toList with
  | [] => none
  | '+' :: ds => if ds ≠ [] ∧ ds.all isDigitCh then some (digitsVal ds) else none
  | '-' :: ds => if ds ≠ [] ∧ ds.all isDigitCh then some (-(digitsVal ds : Int)) else none
  | ds => if ds.all isDigitCh then some (digitsVal ds) else none

/-- ASCII lowercase of one character, Python `str.lower()` per char. -/
def lowerCh (c : Char) : Char :=
  if 'A' ≤ c && c ≤ 'Z' then Char.ofNat (c.toNat + 32) else c

/-- ASCII `str.lower()`. -/
def pyLower (s : String) : String :=
  ⟨s.toList.map lowerCh⟩

/-- Python `s.split("-")[0]`: the prefix before the first hyphen. -/
def baseLang (s : String) : String :=
  ⟨s.toList.takeWhile (· ≠ '-')⟩

/-! ## `edge_tts_dub.get_voice` (src/edge_tts_dub.py lines 27-202)

`VOICE_MAP` maps a language key to a dict with exactly the keys
`"male"` and `"female"`.  `get_voice` lowercases the language code, tries an
exact key match, then the base language before the hyphen, and finally
indexes `VOICE_MAP["en"][gender]` directly — which raises `KeyError` when
`gender` is neither `"male"` nor `"female"`; that error case is modelled as
`none`.
-/

/-- One `VOICE_MAP` entry: the `"male"` and `"female"` voices. -/
structure VoicePair where
  male : String
  female : String
deriving DecidableEq, Repr

/-- The `VOICE_MAP` dict from src/edge_tts_dub.py lines 27-138, in source order. -/
def VOICE_MAP : List (String × VoicePair) :=
  [ ("es", ⟨"es-MX-JorgeNeural", "es-MX-DaliaNeural"⟩),
    ("es-MX", ⟨"es-MX-JorgeNeural", "es-MX-DaliaNeural"⟩),
    ("es-ES", ⟨"es-ES-AlvaroNeural", "es-ES-ElviraNeural"⟩),
    ("es-AR", ⟨"es-AR-TomasNeural", "es-AR-ElenaNeural"⟩),
    ("fr", ⟨"fr-FR-HenriNeural", "fr-FR-DeniseNeural"⟩),
    ("fr-CA", ⟨"fr-CA-AntoineNeural", "fr-CA-SylvieNeural"⟩),
    ("de", ⟨"de-DE-ConradNeural", "de-DE-KatjaNeural"⟩),
    ("it", ⟨"it-IT-DiegoNeural", "it-IT-ElsaNeural"⟩),
    ("pt", ⟨"pt-BR-AntonioNeural", "pt-BR-FranciscaNeural"⟩),
    ("pt-BR", ⟨"pt-BR-AntonioNeural", "pt-BR-FranciscaNeural"⟩),
    ("pt-PT", ⟨"pt-PT-DuarteNeural", "pt-PT-RaquelNeural"⟩),
    ("ru", ⟨"ru-RU-DmitryNeural", "ru-RU-SvetlanaNeural"⟩),
    ("zh", ⟨"zh-CN-YunxiNeural", "zh-CN-XiaoxiaoNeural"⟩),
    ("zh-CN", ⟨"zh-CN-YunxiNeural", "zh-CN-XiaoxiaoNeural"⟩),
    ("zh-TW", ⟨"zh-TW-YunJheNeural", "zh-TW-HsiaoChenNeural"⟩),
    ("ja", ⟨"ja-JP-KeitaNeural", "ja-JP-NanamiNeural"⟩),
    ("ko", ⟨"ko-KR-InJoonNeural", "ko-KR-SunHiNeural"⟩),
    ("ar", ⟨"ar-SA-HamedNeural", "ar-SA-ZariyahNeural"⟩),
    ("hi", ⟨"hi-IN-MadhurNeural", "hi-IN-SwaraNeural"⟩),
    ("nl", ⟨"nl-NL-MaartenNeural", "nl-NL-FennaNeural"⟩),
    ("pl", ⟨"pl-PL-MarekNeural", "pl-PL-ZofiaNeural"⟩),
    ("tr", ⟨"tr-TR-AhmetNeural", "tr-TR-EmelNeural"⟩),
    ("sv", ⟨"sv-SE-MattiasNeural", "sv-SE-SofieNeural"⟩),
    ("no", ⟨"nb-NO-FinnNeural", "nb-NO-PernilleNeural"⟩),
    ("da", ⟨"da-DK-JeppeNeural", "da-DK-ChristelNeural"⟩),
    ("fi", ⟨"fi-FI-HarriNeural", "fi-FI-SelmaNeural"⟩),
    ("el", ⟨"el-GR-NestorasNeural", "el-GR-AthinaNeural"⟩),
    ("cs", ⟨"cs-CZ-AntoninNeural", "cs-CZ-VlastaNeural"⟩),
    ("ro", ⟨"ro-RO-EmilNeural", "ro-RO-AlinaNeural"⟩),
    ("hu", ⟨"hu-HU-TamasNeural", "hu-HU-NoemiNeural"⟩),
    ("th", ⟨"th-TH-NiwatNeural", "th-TH-PremwadeeNeural"⟩),
    ("vi", ⟨"vi-VN-NamMinhNeural", "vi-VN-HoaiMyNeural"⟩),
    ("id", ⟨"id-ID-ArdiNeural", "id-ID-GadisNeural"⟩),
    ("ms", ⟨"ms-MY-OsmanNeural", "ms-MY-YasminNeural"⟩),
    ("fil", ⟨"fil-PH-AngeloNeural", "fil-PH-BlessicaNeural"⟩),
    ("uk", ⟨"uk-UA-OstapNeural", "uk-UA-PolinaNeural"⟩),
    ("he", ⟨"he-IL-AvriNeural", "he-IL-HilaNeural"⟩),
    ("bn", ⟨"bn-IN-BashkarNeural", "bn-IN-TanishaaNeural"⟩),
    ("ta", ⟨"ta-IN-ValluvarNeural", "ta-IN-PallaviNeural"⟩),
    ("te", ⟨"te-IN-MohanNeural", "te-IN-ShrutiNeural"⟩),
    ("en", ⟨"en-US-GuyNeural", "en-US-JennyNeural"⟩),
    ("en-US", ⟨"en-US-GuyNeural", "en-US-JennyNeural"⟩),
    ("en-GB", ⟨"en-GB-RyanNeural", "en-GB-SoniaNeural"⟩),
    ("en-AU", ⟨"en-AU-WilliamNeural", "en-AU-NatashaNeural"⟩),
    ("en-IN", ⟨"en-IN-PrabhatNeural", "en-IN-NeerjaNeural"⟩) ]

/-- Dict lookup in `VOICE_MAP`. -/
def voiceMapGet (k : String) : Option VoicePair :=
  (VOICE_MAP.find? (fun p => p.1 = k)).map (·.2)

/-- Lookup `VOICE_MAP[lang].get(gender, VOICE_MAP[lang]["female"])`: the entries
hold exactly the keys `"male"` and `"female"`, so any other gender string
falls back to the `"female"` value. -/
def pairGet (p : VoicePair) (gender : String) : String :=
  if gender = "male" then p.male else p.female

/-- Function `get_voice` (src/edge_tts_dub.py lines 188-202).  The final branch
`VOICE_MAP["en"][gender]` is a direct dict indexing: a gender other than
`"male"`/`"female"` raises `KeyError`, modelled as `none`. -/
def get_voice (language_code : String) (gender : String) : Option String :=
  let lang := pyLower language_code
  match voiceMapGet lang with
  | some p => some (pairGet p gender)
  | none =>
    match voiceMapGet (baseLang lang) with
    | some p => some (pairGet p gender)
    | none =>
      match voiceMapGet "en" with
      | some p =>
        if gender = "male" then some p.male
        else if gender = "female" then some p.female
        else none
      | none => none

/-! ## Python numeric primitives on `ℚ` -/

/-- Python `int(x)` on a float: truncation toward zero. -/
def pyInt (q : ℚ) : Int :=
  if 0 ≤ q then Rat.floor q else -(Rat.floor (-q))

/-- Python `round(x)`: round half to even (banker's rounding), the
idealisation of CPython `round` on floats. -/
def pyRound (q : ℚ) : Int :=
  if q - (Rat.floor q : ℚ) < 1/2 then Rat.floor q
  else if 1/2 < q - (Rat.floor q : ℚ) then Rat.floor q + 1
  else if Rat.floor q % 2 = 0 then Rat.floor q
  else Rat.floor q + 1

/-- Python `round(x, 1)`. -/
def pyRound1 (q : ℚ) : ℚ := (pyRound (q * 10) : ℚ) / 10

/-- Python `round(x, 2)`. -/
def pyRound2 (q : ℚ) : ℚ := (pyRound (q * 100) : ℚ) / 100

/-! ## `smart_diarize.classify_gender` (src/smart_diarize.py lines 105-132)

`estimate_pitch` either fails (`None`) or returns an F0; `classify_gender`
maps that to a gender label, a confidence, and the rounded pitch.
-/

/-- The dict `classify_gender` returns: gender label, confidence, pitch. -/
structure GenderResult where
  gender : String
  confidence : ℚ
  pitch : Option ℚ
deriving DecidableEq, Repr

/-- Function `classify_gender` (src/smart_diarize.py lines 105-132), translated
clause by clause; `0.7`, `0.5` are the exact rationals of the float
literals, `round(x, 2)`/`round(x, 1)` are `pyRound2`/`pyRound1`. -/
def classify_gender (pitch_hz : Option ℚ) : GenderResult :=
  match pitch_hz with
  | none => ⟨"unknown", 0, none⟩
  | some p =>
    if p < 140 then
      ⟨"male", min 1 ((140 - p) / 55 + 1/2), some (pyRound1 p)⟩
    else if p > 185 then
      ⟨"female", min 1 ((p - 185) / 70 + 1/2), some (pyRound1 p)⟩
    else
      let male_score := (185 - p) / 45
      let female_score := (p - 140) / 45
      if male_score > female_score then
        ⟨"male", pyRound2 (male_score * (7/10)), some (pyRound1 p)⟩
      else
        ⟨"female", pyRound2 (female_score * (7/10)), some (pyRound1 p)⟩

/-- The classifier exactly as claim C9 words it (spec §S3): identical to
the code except that in the overlap zone the confidence is `0.7 × larger
score` with no rounding.  Used to compare spec against code. -/
def classify_gender_claimC9 (pitch_hz : Option ℚ) : GenderResult :=
  match pitch_hz with
  | none => ⟨"unknown", 0, none⟩
  | some p =>
    if p < 140 then
      ⟨"male", min 1 ((140 - p) / 55 + 1/2), some (pyRound1 p)⟩
    else if p > 185 then
      ⟨"female", min 1 ((p - 185) / 70 + 1/2), some (pyRound1 p)⟩
    else
      let male_score := (185 - p) / 45
      let female_score := (p - 140) / 45
      if male_score > female_score then
        ⟨"male", male_score * (7/10), some (pyRound1 p)⟩
      else
        ⟨"female", female_score * (7/10), some (pyRound1 p)⟩

/-- Claim C9 amended: the same reference definition with the overlap-zone
confidence rounded to two decimals, as the code does. -/
def classify_gender_specRounded (pitch_hz : Option ℚ) : GenderResult :=
  match pitch_hz with
  | none => ⟨"unknown", 0, none⟩
  | some p =>
    if p < 140 then
      ⟨"male", min 1 ((140 - p) / 55 + 1/2), some (pyRound1 p)⟩
    else if p > 185 then
      ⟨"female", min 1 ((p - 185) / 70 + 1/2), some (pyRound1 p)⟩
    else
      let male_score := (185 - p) / 45
      let female_score := (p - 140) / 45
      if male_score > female_score then
        ⟨"male", pyRound2 (male_score * (7/10)), some (pyRound1 p)⟩
      else
        ⟨"female", pyRound2 (female_score * (7/10)), some (pyRound1 p)⟩

/-! ## Rate arithmetic of `edge_tts_dub` (src/edge_tts_dub.py lines 280-399)

`parse_rate` parses strings like `"+10%"`; `combine_rates` adds the
alignment adjustment to the emotion base rate and clamps to Edge TTS
limits; `generate_segment_audio` re-renders a segment once when the first
render's duration is more than 0.3 s off target.
-/

/-- Function `parse_rate` (lines 280-286): drop every `%`, strip, `int(...)`,
`0` on parse failure. -/
def parse_rate (rate_str : String) : Int :=
  let t := pyStrip ⟨rate_str.toList.filter (fun c => c ≠ '%')⟩
  (pyParseInt t).getD 0

/-- The clamped combined rate of `combine_rates` (lines 288-293):
`max(-50, min(100, emotion + alignment))`. -/
def combined_rate (emotion_rate : String) (alignment_rate : Int) : Int :=
  max (-50) (min 100 (parse_rate emotion_rate + alignment_rate))

/-- Function `combine_rates` (lines 288-297): clamp, then format with explicit
sign. -/
def combine_rates (emotion_rate : String) (alignment_rate : Int) : String :=
  let combined := combined_rate emotion_rate alignment_rate
  if combined ≥ 0 then "+" ++ toString combined ++ "%"
  else toString combined ++ "%"

/-- The `rate_adjustment` of `generate_segment_audio` (line 353):
`int(((actual/target) - 1) * 100)` — Python `int` truncates toward zero. -/
def rate_adjustment (actual target : ℚ) : Int :=
  pyInt ((actual / target - 1) * 100)

/-- The sequence of rates `generate_segment_audio` renders one segment
with on its success path (lines 330-364): the emotion base rate, then — if
a target duration is given and the measured first-render duration is more
than 0.3 s off — exactly one re-render at the combined rate. -/
def segment_renders (base_rate : String) (first_actual target : ℚ) :
    List String :=
  if 0 < target ∧ 0 < first_actual ∧ |first_actual - target| > 3/10 then
    [base_rate, combine_rates base_rate (rate_adjustment first_actual target)]
  else
    [base_rate]

/-! ## `generate_segments_audio` acceptance (src/edge_tts_dub.py 401-458)

Each segment synthesis either fails because the stripped text is empty
(`generate_segment_audio` line 314-316) or succeeds/fails per the external
TTS service, modelled by an oracle `outcome : ℕ → Bool` indexed by segment
position.  The stage reports success when
`failed < len(segments) * 0.2` (line 450); over exact rationals that
comparison is `5 * failed < len(segments)`.
-/

/-- Whether segment `i` with text `t` produces an audio file. -/
def seg_ok (outcome : Nat → Bool) (i : Nat) (t : String) : Bool :=
  if pyStrip t = "" then false else outcome i

/-- Number of failed segments in `generate_segments_audio`. -/
def failed_count (outcome : Nat → Bool) (texts : List String) : Nat :=
  texts.enum.countP (fun p => !(seg_ok outcome p.1 p.2))

/-- Number of successful segments in `generate_segments_audio`. -/
def successful_count (outcome : Nat → Bool) (texts : List String) : Nat :=
  texts.enum.countP (fun p => seg_ok outcome p.1 p.2)

/-- The `success` flag of `generate_segments_audio` (line 450):
`failed < len(segments) * 0.2`. -/
def generate_segments_audio_success (outcome : Nat → Bool)
    (texts : List String) : Bool :=
  decide (5 * failed_count outcome texts < texts.length)

/-! ## Provider fallback state machine (src/edge_tts_dub.py lines 498-581)

`generate_audio` consults the module-global
`EDGE_TTS_CONSECUTIVE_FAILURES`: at ≥ 3 it skips Edge TTS entirely; an
Edge success resets the counter to 0; a fully failed Edge attempt run
increments it.  The external world of one call is an oracle: which Edge
attempt (if any) would succeed, and whether gTTS would succeed.
-/

/-- Outcomes the external services would produce for one
`generate_audio` call. -/
structure TtsCallEnv where
  edge_attempt_ok : Nat → Bool
  gtts_ok : Bool

/-- Which engine produced the returned audio, if any. -/
inductive Engine
  | edge
  | gtts
  | failed
deriving DecidableEq, Repr

/-- Whether the Edge retry loop (lines 522-554) exits with a success
within `max_retries` attempts. -/
def edge_succeeds (env : TtsCallEnv) (max_retries : Nat) : Bool :=
  (List.range max_retries).any env.edge_attempt_ok

/-- One `generate_audio` call (lines 498-581): takes the current
consecutive-failure count, returns the engine that served the call and
the updated count. -/
def generate_audio (gtts_available : Bool) (consecutive_failures : Nat)
    (env : TtsCallEnv) (max_retries : Nat) : Engine × Nat :=
  let skip_edge_tts := consecutive_failures ≥ 3
  if ¬skip_edge_tts then
    if edge_succeeds env max_retries then (.edge, 0)
    else
      let failures := consecutive_failures + 1
      if gtts_available && env.gtts_ok then (.gtts, failures)
      else (.failed, failures)
  else
    if gtts_available && env.gtts_ok then (.gtts, consecutive_failures)
    else (.failed, consecutive_failures)

/-! ## `voice_selector.VoiceAssigner` (src/server/tts/voice_selector.py)

The catalog `EDGE_TTS_VOICES` maps a two-letter language code to its male
and female voice lists; `VoiceAssigner.get_voice_for_speaker` caches a
voice per `f"{speaker_id}_{language}"` key and tracks used voices per
language.
-/

/-- One catalog entry (`name`, `style`, `age`). -/
structure CatVoice where
  name : String
  style : String
  age : String
deriving DecidableEq, Repr

/-- The `EDGE_TTS_VOICES` catalog (src/server/tts/voice_selector.py lines 18-167):
language code ↦ (male list, female list), in source order. -/
def EDGE_TTS_VOICES : List (String × (List CatVoice × List CatVoice)) :=
  [ ("en",
     ([⟨"en-US-GuyNeural", "general", "adult"⟩,
       ⟨"en-US-DavisNeural", "general", "adult"⟩,
       ⟨"en-US-TonyNeural", "general", "adult"⟩,
       ⟨"en-US-JasonNeural", "general", "adult"⟩,
       ⟨"en-GB-RyanNeural", "general", "adult"⟩],
      [⟨"en-US-JennyNeural", "general", "adult"⟩,
       ⟨"en-US-AriaNeural", "expressive", "young_adult"⟩,
       ⟨"en-US-SaraNeural", "general", "adult"⟩,
       ⟨"en-US-MichelleNeural", "general", "adult"⟩,
       ⟨"en-GB-SoniaNeural", "general", "adult"⟩])),
    ("es",
     ([⟨"es-MX-JorgeNeural", "general", "adult"⟩,
       ⟨"es-ES-AlvaroNeural", "general", "adult"⟩],
      [⟨"es-MX-DaliaNeural", "general", "adult"⟩,
       ⟨"es-ES-ElviraNeural", "general", "adult"⟩])),
    ("fr",
     ([⟨"fr-FR-HenriNeural", "general", "adult"⟩,
       ⟨"fr-CA-AntoineNeural", "general", "adult"⟩],
      [⟨"fr-FR-DeniseNeural", "general", "adult"⟩,
       ⟨"fr-CA-SylvieNeural", "general", "adult"⟩])),
    ("de",
     ([⟨"de-DE-ConradNeural", "general", "adult"⟩,
       ⟨"de-AT-JonasNeural", "general", "adult"⟩],
      [⟨"de-DE-KatjaNeural", "general", "adult"⟩,
       ⟨"de-AT-IngridNeural", "general", "adult"⟩])),
    ("it",
     ([⟨"it-IT-DiegoNeural", "general", "adult"⟩],
      [⟨"it-IT-ElsaNeural", "general", "adult"⟩,
       ⟨"it-IT-IsabellaNeural", "general", "adult"⟩])),
    ("pt",
     ([⟨"pt-BR-AntonioNeural", "general", "adult"⟩,
       ⟨"pt-PT-DuarteNeural", "general", "adult"⟩],
      [⟨"pt-BR-FranciscaNeural", "general", "adult"⟩,
       ⟨"pt-PT-RaquelNeural", "general", "adult"⟩])),
    ("ru",
     ([⟨"ru-RU-DmitryNeural", "general", "adult"⟩],
      [⟨"ru-RU-SvetlanaNeural", "general", "adult"⟩,
       ⟨"ru-RU-DariyaNeural", "general", "adult"⟩])),
    ("zh",
     ([⟨"zh-CN-YunxiNeural", "general", "adult"⟩,
       ⟨"zh-CN-YunjianNeural", "general", "adult"⟩],
      [⟨"zh-CN-XiaoxiaoNeural", "expressive", "young_adult"⟩,
       ⟨"zh-CN-XiaoyiNeural", "general", "adult"⟩])),
    ("ja",
     ([⟨"ja-JP-KeitaNeural", "general", "adult"⟩],
      [⟨"ja-JP-NanamiNeural", "general", "adult"⟩])),
    ("ko",
     ([⟨"ko-KR-InJoonNeural", "general", "adult"⟩],
      [⟨"ko-KR-SunHiNeural", "general", "adult"⟩])),
    ("ar",
     ([⟨"ar-SA-HamedNeural", "general", "adult"⟩],
      [⟨"ar-SA-ZariyahNeural", "general", "adult"⟩])),
    ("hi",
     ([⟨"hi-IN-MadhurNeural", "general", "adult"⟩],
      [⟨"hi-IN-SwaraNeural", "general", "adult"⟩])),
    ("pl",
     ([⟨"pl-PL-MarekNeural", "general", "adult"⟩],
      [⟨"pl-PL-ZofiaNeural", "general", "adult"⟩])),
    ("nl",
     ([⟨"nl-NL-MaartenNeural", "general", "adult"⟩],
      [⟨"nl-NL-ColetteNeural", "general", "adult"⟩])),
    ("tr",
     ([⟨"tr-TR-AhmetNeural", "general", "adult"⟩],
      [⟨"tr-TR-EmelNeural", "general", "adult"⟩])),
    ("sv",
     ([⟨"sv-SE-MattiasNeural", "general", "adult"⟩],
      [⟨"sv-SE-SofieNeural", "general", "adult"⟩])) ]

/-- Catalog lookup. -/
def catGet (lang : String) : Option (List CatVoice × List CatVoice) :=
  (EDGE_TTS_VOICES.find? (fun p => p.1 = lang)).map (·.2)

/-- The `VoiceAssigner` instance state: `speaker_voice_map` (cache key ↦
voice) and `used_voices` (language ↦ used set), both as association
lists. -/
structure VoiceAssignerState where
  speaker_voice_map : List (String × String)
  used_voices : List (String × List String)
deriving DecidableEq, Repr

/-- The fresh `VoiceAssigner()`. -/
def VoiceAssigner_init : VoiceAssignerState := ⟨[], []⟩

/-- Association-list lookup (Python dict `in`/`[]`). -/
def alistGet (m : List (String × String)) (k : String) : Option String :=
  (m.find? (fun p => p.1 = k)).map (·.2)

/-- Read `self.used_voices[lang]` as a set of names, `∅` when absent. -/
def usedFor (u : List (String × List String)) (lang : String) :
    List String :=
  ((u.find? (fun p => p.1 = lang)).map (·.2)).getD []

/-- Update `self.used_voices.setdefault(lang, set()).add(v)`. -/
def addUsed (u : List (String × List String)) (lang v : String) :
    List (String × List String) :=
  match u with
  | [] => [(lang, [v])]
  | (l, vs) :: rest =>
    if l = lang then (l, if v ∈ vs then vs else vs ++ [v]) :: rest
    else (l, vs) :: addUsed rest lang v

/-- What `get_voice_for_speaker` returns (the keys the claims need). -/
structure VoiceResult where
  voice : String
  cached : Bool
  fallback : Bool
deriving DecidableEq, Repr

/-- Python `language[:2]`. -/
def take2 (s : String) : String := ⟨s.toList.take 2⟩

/-- The cache key `f"{speaker_id}_{language}"`. -/
def cacheKey (speaker_id language : String) : String :=
  speaker_id ++ "_" ++ language

/-- The voice-picking loops of `get_voice_for_speaker` (lines 221-236):
first unused voice whose style is compatible (`style == "general"` accepts
any), else the first voice matching the style, else the first voice;
`none` only for an empty list. -/
def selectVoice (voices : List CatVoice) (used : List String)
    (style : String) : Option String :=
  match voices.find?
      (fun v => v.name ∉ used ∧ (style = "general" ∨ v.style = style)) with
  | some v => some v.name
  | none =>
    match voices.find? (fun v => v.style = style) with
    | some v => some v.name
    | none => voices.head?.map (fun v => v.name)

/-- The tail of `get_voice_for_speaker` past the cache miss (lines
209-248): an empty candidate list yields the ultimate fallback
`"en-US-JennyNeural"` without touching the state; otherwise the selected
voice is cached under `key` and marked used for `lang_code`. -/
def assignFresh (st : VoiceAssignerState) (key lang_code : String)
    (voices : List CatVoice) (style : String) :
    VoiceResult × VoiceAssignerState :=
  match selectVoice voices (usedFor st.used_voices lang_code) style with
  | none => (⟨"en-US-JennyNeural", false, true⟩, st)
  | some selected =>
    (⟨selected, false, false⟩,
     ⟨st.speaker_voice_map ++ [(key, selected)],
      addUsed st.used_voices lang_code selected⟩)

/-- Method `VoiceAssigner.get_voice_for_speaker` (lines 175-248), state-passing:
cache hit short-circuits; otherwise resolve gender from pitch, resolve the
catalog language (fallback `"en"`), pick a voice with `selectVoice`, cache
it and mark it used. -/
def get_voice_for_speaker (st : VoiceAssignerState)
    (speaker_id language gender : String) (pitch_estimate : ℚ)
    (style : String) : VoiceResult × VoiceAssignerState :=
  let key := cacheKey speaker_id language
  match alistGet st.speaker_voice_map key with
  | some v => (⟨v, true, false⟩, st)
  | none =>
    let gender1 :=
      if gender = "unknown" then
        (if pitch_estimate > 180 then "female" else "male")
      else gender
    let lang0 := pyLower (take2 language)
    let lang_code := if (catGet lang0).isNone then "en" else lang0
    let entry := (catGet lang_code).getD ([], [])
    let voices0 :=
      if gender1 = "male" then entry.1
      else if gender1 = "female" then entry.2
      else []
    let voices :=
      if voices0 = [] then
        (if gender1 = "male" then entry.2 else entry.1)
      else voices0
    assignFresh st key lang_code voices style

/-! ## `segment_assembler` (src/server/tts/segment_assembler.py)

`assemble_segments_with_timing` walks the segments sorted by start with a
cursor, inserting gap silences, speed-adjusted or original clips, missing
clip silences, and a trailing silence.  External effects are an oracle
environment `AsmEnv`:
  * `fileExists p`      — `os.path.exists(p)`;
  * `duration p`        — `get_audio_duration(p)` (ffprobe);
  * `silence_ok`        — whether `generate_silence`'s ffmpeg call
                          succeeds;
  * `has_rubberband`    — `HAS_RUBBERBAND`;
  * `read_ok p`         — `sf.read(p)` raises no exception;
  * `sf_duration p`     — `len(audio)/sr` for the loaded clip;
  * `stretch_exc_free p`— the stretch/write region raises no exception;
  * `convert_ok p`      — the final ffmpeg MP3 conversion returncode 0;
  * `ff_ok p`           — the ffmpeg `atempo` call returncode 0.
The stretched samples only affect audio content, never control flow, so
they are not modelled; the clamped factors appear as
`stretch_ratio_used` / `speed_factor_used` below.
-/

/-- External-world oracle for one assembly run. -/
structure AsmEnv where
  fileExists : String → Bool
  duration : String → ℚ
  silence_ok : Bool
  has_rubberband : Bool
  read_ok : String → Bool
  sf_duration : String → ℚ
  stretch_exc_free : String → Bool
  convert_ok : String → Bool
  ff_ok : String → Bool

/-- One element of `tts_segments`: `start`, `end`, `audio_path`. -/
structure Seg where
  start : ℚ
  end_ : ℚ
  audio_path : String
deriving DecidableEq, Repr

/-- One concatenated piece of the output audio. -/
inductive Piece
  | silence (dur : ℚ)
  | clip (path : String)
  | adjusted (path : String)
deriving DecidableEq, Repr

/-- The clamped rubberband stretch ratio (lines 66-67):
`max(0.7, min(1.5, target/current))`. -/
def stretch_ratio_used (current target : ℚ) : ℚ :=
  max (7/10) (min (3/2) (target / current))

/-- The clamped ffmpeg atempo speed factor (lines 104-105):
`max(0.5, min(2.0, current/target))`. -/
def speed_factor_used (current target : ℚ) : ℚ :=
  max (1/2) (min 2 (current / target))

/-- Function `adjust_segment_speed_ffmpeg` (lines 98-113): fails when either
duration is non-positive, else succeeds iff the `atempo` call does.  The
factor it passes to ffmpeg is `speed_factor_used`. -/
def adjust_segment_speed_ffmpeg (env : AsmEnv) (input_path : String)
    (target_duration : ℚ) : Bool :=
  let current_duration := env.duration input_path
  if current_duration ≤ 0 ∨ target_duration ≤ 0 then false
  else env.ff_ok input_path

/-- Function `adjust_segment_speed_rubberband` (lines 45-96): without rubberband, or
on any exception in the `try` block, fall back to the ffmpeg path;
non-positive durations fail; otherwise the result is the MP3 conversion's
returncode.  The ratio it stretches by is `stretch_ratio_used`. -/
def adjust_segment_speed_rubberband (env : AsmEnv) (input_path : String)
    (target_duration : ℚ) : Bool :=
  if ¬env.has_rubberband then
    adjust_segment_speed_ffmpeg env input_path target_duration
  else if ¬env.read_ok input_path then
    adjust_segment_speed_ffmpeg env input_path target_duration
  else
    let current_duration := env.sf_duration input_path
    if current_duration ≤ 0 ∨ target_duration ≤ 0 then false
    else if ¬env.stretch_exc_free input_path then
      adjust_segment_speed_ffmpeg env input_path target_duration
    else env.convert_ok input_path

/-- Function `adjust_segment_speed` (lines 115-120). -/
def adjust_segment_speed (env : AsmEnv) (input_path : String)
    (target_duration : ℚ) : Bool :=
  if env.has_rubberband then
    adjust_segment_speed_rubberband env input_path target_duration
  else
    adjust_segment_speed_ffmpeg env input_path target_duration

/-- The pieces the loop body (lines 168-189) appends for one segment once
the cursor sits at the segment's start: existing clip, adjusted when more
than 0.3 s off target and the adjustment succeeds, original on adjustment
failure or good fit; silence of the segment's span when the file is
missing (and the silence render succeeds). -/
def segBody (env : AsmEnv) (seg : Seg) : List Piece :=
  let target_duration := seg.end_ - seg.start
  if env.fileExists seg.audio_path then
    let actual_duration := env.duration seg.audio_path
    if |actual_duration - target_duration| > 3/10 then
      if adjust_segment_speed env seg.audio_path target_duration then
        [.adjusted seg.audio_path]
      else [.clip seg.audio_path]
    else [.clip seg.audio_path]
  else
    if env.silence_ok then [.silence target_duration] else []

/-- One iteration of the loop (lines 154-189) over state
(pieces so far, `current_time`): gap silence when the segment starts past
the cursor, then the segment body; the cursor moves to the segment's
end. -/
def stepSeg (env : AsmEnv) (st : List Piece × ℚ) (seg : Seg) :
    List Piece × ℚ :=
  let gap :=
    if seg.start > st.2 ∧ env.silence_ok then
      [Piece.silence (seg.start - st.2)]
    else []
  (st.1 ++ gap ++ segBody env seg, seg.end_)

/-- The loop over the segments sorted by `start` (line 149), cursor
starting at `0.0`. -/
def runAssemble (env : AsmEnv) (tts_segments : List Seg) :
    List Piece × ℚ :=
  (tts_segments.mergeSort (fun a b => a.start ≤ b.start)).foldl
    (stepSeg env) ([], 0)

/-- Function `assemble_segments_with_timing` (lines 122-241) up to the final ffmpeg
concat: `none` for an empty segment list (the `"No segments provided"`
error), else the concatenated piece list with the trailing silence of
lines 191-195. -/
def assemble_segments_with_timing (env : AsmEnv) (tts_segments : List Seg)
    (total_duration : ℚ) : Option (List Piece) :=
  if tts_segments = [] then none
  else
    let r := runAssemble env tts_segments
    let tail :=
      if r.2 < total_duration ∧ env.silence_ok then
        [Piece.silence (total_duration - r.2)]
      else []
    some (r.1 ++ tail)

/-! ## Batch translation output parsing (src/server/tts/translate.py 420-431)

`translate_segments` parses the model output with
`re.findall(r'\[(\d+)\]\s*(.+?)(?=\[\d+\]|$)', result_text, re.DOTALL)`
and, when the match count differs from the input count, falls back to a
newline split with the numeric prefix re-stripped.  The regex is embedded
with Python's exact scanning semantics on the stripped text: `\d+` and
`\s*` are greedy (backtracking on `\s*` only matters when `.+?` would
otherwise have no character, i.e. at end of input), `.+?` is lazy with
DOTALL, and the lookahead accepts either a following `[n]` tag or the end
of the input.
-/

/-- Whether `\[\d+\]` matches at this position. -/
def bracketNumAt : List Char → Bool
  | '[' :: rest =>
    let ds := rest.takeWhile isDigitCh
    decide (ds ≠ []) &&
      (match rest.drop ds.length with
       | ']' :: _ => true
       | _ => false)
  | _ => false

/-- Split off the lazy `.+?` content: the shortest non-empty prefix after
which `(?=\[\d+\]|$)` holds.  The first character is always consumed (the
`+`), then the scan stops at the first `[n]` tag or at the end. -/
def lazyContent (acc : List Char) : List Char → List Char × List Char
  | [] => (acc, [])
  | c :: rest =>
    if bracketNumAt (c :: rest) then (acc, c :: rest)
    else lazyContent (acc ++ [c]) rest

/-- Try to match `\[(\d+)\]\s*(.+?)(?=\[\d+\]|$)` at the head of `cs`;
returns the group-2 content and the remainder after the match.  When `\s*`
consumes up to the end of input, the engine backtracks one whitespace
character so that `.+?` can consume it. -/
def matchNumbered (cs : List Char) : Option (List Char × List Char) :=
  match cs with
  | '[' :: cs1 =>
    let ds := cs1.takeWhile isDigitCh
    if ds = [] then none
    else
      match cs1.drop ds.length with
      | ']' :: cs3 =>
        let ws := cs3.takeWhile isPyWS
        let cs4 := cs3.drop ws.length
        match cs4 with
        | [] =>
          match ws.getLast? with
          | some w => some ([w], [])
          | none => none
        | c :: rest => some (lazyContent [c] rest)
      | _ => none
  | _ => none

/-- The `re.findall` scanning loop: try a match at each position, consume it
on success, advance one character on failure.  `fuel` bounds the scan by
the input length. -/
def findallNumberedAux : Nat → List Char → List (List Char)
  | 0, _ => []
  | _, [] => []
  | fuel + 1, c :: cs =>
    match matchNumbered (c :: cs) with
    | some (content, rest) => content :: findallNumberedAux fuel rest
    | none => findallNumberedAux fuel cs

/-- All group-2 captures of the numbered-segment regex, stripped as the
appending loop (line 426) does. -/
def findall_numbered (s : String) : List String :=
  (findallNumberedAux s.toList.length s.toList).map
    (fun l => (⟨pyStripL l⟩ : String))

/-- Python `s.split('\n')`. -/
def splitNL (cs : List Char) : List (List Char) :=
  cs.foldr
    (fun c acc =>
      if c = '\n' then [] :: acc
      else
        match acc with
        | h :: t => (c :: h) :: t
        | [] => [[c]])
    [[]]

/-- Python `re.sub(r'^\[\d+\]\s*', '', s)`: remove one leading `[n]` tag and the
whitespace after it, when present. -/
def dropNumberTag (cs : List Char) : List Char :=
  match cs with
  | '[' :: cs1 =>
    let ds := cs1.takeWhile isDigitCh
    if ds = [] then cs
    else
      match cs1.drop ds.length with
      | ']' :: cs3 => cs3.dropWhile isPyWS
      | _ => cs
  | _ => cs

/-- The fallback parse (lines 429-431): split on newlines, strip, drop
empties, re-strip the numeric prefix. -/
def fallback_parse (s : String) : List String :=
  (((splitNL s.toList).map pyStripL).filter (fun l => l ≠ [])).map
    (fun l => (⟨dropNumberTag l⟩ : String))

/-- The parsing step of `translate_segments` (lines 420-431) applied to
the model response `content`: strip, run the numbered-format regex, and
when its match count differs from the input segment count, use the
fallback parse.  Returns the `translations` field of the success
result. -/
def translate_parse (content : String) (n_input : Nat) : List String :=
  let result_text := pyStrip content
  let translated_segments := findall_numbered result_text
  if translated_segments.length ≠ n_input then fallback_parse result_text
  else translated_segments

/-! ## `translate_timed_segments` batching (src/server/tts/translate.py 469-557)

The batch loop over chunks of 20 non-blank texts; each
`translate_segments` call is an oracle `call : ℕ → Option (List String)`
indexed by call order (`none` = the call returned `success: False`).  A
failed batch bumps `failed_batches` (never reset), aborts fatally when it
reaches 3, else retries the batch once and aborts fatally when the retry
also fails.  The fatal result carries `partial_count`, the number of
translations accumulated so far.
-/

/-- One input segment of `translate_timed_segments`. -/
structure TimedSeg where
  text : String
  start : ℚ
  end_ : ℚ
deriving DecidableEq, Repr

/-- Result of `translate_timed_segments`: the `"No text segments"` error,
the fatal abort with its `partial_count`, or success with the accumulated
translations. -/
inductive TransOut
  | noText
  | fatal (partial_count : Nat)
  | ok (translations : List String)
deriving DecidableEq, Repr

/-- Chunks of `size` in order (`range(0, len, BATCH_SIZE)` slicing). -/
def chunkAux (size : Nat) : Nat → List String → List (List String)
  | 0, _ => []
  | _, [] => []
  | fuel + 1, l => l.take size :: chunkAux size fuel (l.drop size)

/-- Slices `texts[batch_start:batch_start+BATCH_SIZE]` for each batch. -/
def chunk (size : Nat) (l : List String) : List (List String) :=
  chunkAux size l.length l

/-- The batch loop (lines 495-533): state is the accumulated translations,
the `failed_batches` counter and the next oracle call index. -/
def ttLoop (call : Nat → Option (List String)) :
    List (List String) → List String → Nat → Nat → TransOut
  | [], acc, _, _ => .ok acc
  | _ :: bs, acc, failed_batches, idx =>
    match call idx with
    | some ts => ttLoop call bs (acc ++ ts) failed_batches (idx + 1)
    | none =>
      let failed := failed_batches + 1
      if failed ≥ 3 then .fatal acc.length
      else
        match call (idx + 1) with
        | some ts => ttLoop call bs (acc ++ ts) failed (idx + 2)
        | none => .fatal acc.length

/-- Function `translate_timed_segments` (lines 469-533): keep the non-blank texts,
batch them by 20, and run the loop. -/
def translate_timed_segments (call : Nat → Option (List String))
    (segments : List TimedSeg) : TransOut :=
  let texts := (segments.filter (fun s => pyStrip s.text ≠ "")).map
    (fun s => s.text)
  if texts = [] then .noText
  else ttLoop call (chunk 20 texts) [] 0 0

/-! ## Concrete environments used to instantiate the theorems -/

/-- Assembly environment where no clip file exists and silence rendering
succeeds. -/
def asmEnvMissing : AsmEnv :=
  ⟨fun _ => false, fun _ => 0, true, true, fun _ => true, fun _ => 1,
   fun _ => true, fun _ => true, fun _ => true⟩

/-- Assembly environment where every file exists with measured duration
5 s and every external call succeeds. -/
def asmEnvGood : AsmEnv :=
  ⟨fun _ => true, fun _ => 5, true, true, fun _ => true, fun _ => 5,
   fun _ => true, fun _ => true, fun _ => true⟩

/-- Like `asmEnvGood` but both stretch conversion calls fail. -/
def asmEnvBad : AsmEnv :=
  ⟨fun _ => true, fun _ => 5, true, true, fun _ => true, fun _ => 5,
   fun _ => true, fun _ => false, fun _ => false⟩

/-- Translation oracle: every call succeeds with one translation. -/
def callAllOk : Nat → Option (List String) := fun _ => some ["x"]

/-- Translation oracle: every call fails. -/
def callAllFail : Nat → Option (List String) := fun _ => none

/-- Translation oracle: even-indexed calls fail, odd-indexed succeed. -/
def callEvenFail : Nat → Option (List String) :=
  fun i => if i % 2 = 0 then none else some ["y"]

/-- TTS call outcome where Edge succeeds immediately. -/
def ttsEdgeOk : TtsCallEnv := ⟨fun _ => true, true⟩

/-- TTS call outcome where every Edge attempt fails and gTTS succeeds. -/
def ttsEdgeFail : TtsCallEnv := ⟨fun _ => false, true⟩

/-- Assigner state with one cached Japanese assignment. -/
def stCachedJa : VoiceAssignerState :=
  ⟨[("A_ja", "ja-JP-KeitaNeural")], [("ja", ["ja-JP-KeitaNeural"])]⟩

/-- Per-segment synthesis outcome: every segment but the first succeeds. -/
def outcomeNot0 : Nat → Bool := fun i => i != 0

/-! ## Helper lemmas -/

/-- The rational floor is a lower bound. -/
theorem rat_floor_le (q : ℚ) : (Rat.floor q : ℚ) ≤ q :=
  Rat.le_floor.mp le_rfl

/-- The rational floor is the greatest integer lower bound. -/
theorem rat_lt_floor_add_one (q : ℚ) : q < (Rat.floor q : ℚ) + 1 := by
  by_contra h
  push_neg at h
  have h2 : Rat.floor q + 1 ≤ Rat.floor q :=
    Rat.le_floor.mpr (by push_cast; linarith)
  omega

/-- Banker's rounding stays within one unit above the floor. -/
theorem pyRound_bounds (q : ℚ) :
    Rat.floor q ≤ pyRound q ∧ pyRound q ≤ Rat.floor q + 1 := by
  unfold pyRound
  split_ifs <;> omega

/-- Rounding `round(x, 2)` of a value in `[0, 7/10]` stays in `[0, 1]`. -/
theorem pyRound2_of_le (q : ℚ) (h0 : 0 ≤ q) (h1 : q ≤ 7/10) :
    0 ≤ pyRound2 q ∧ pyRound2 q ≤ 1 := by
  have hf0 : 0 ≤ Rat.floor (q * 100) :=
    Rat.le_floor.mpr (by push_cast; nlinarith)
  have hfl : (Rat.floor (q * 100) : ℚ) ≤ q * 100 := rat_floor_le _
  have hf70 : Rat.floor (q * 100) ≤ 70 := by
    by_contra h
    push_neg at h
    have : ((71 : Int) : ℚ) ≤ q * 100 := by
      calc ((71 : Int) : ℚ) ≤ (Rat.floor (q * 100) : ℚ) := by exact_mod_cast h
        _ ≤ q * 100 := hfl
    push_cast at this
    nlinarith
  obtain ⟨hr1, hr2⟩ := pyRound_bounds (q * 100)
  constructor
  · unfold pyRound2
    have hc : (0 : ℚ) ≤ (pyRound (q * 100) : ℚ) := by
      exact_mod_cast le_trans hf0 hr1
    exact div_nonneg hc (by norm_num)
  · unfold pyRound2
    have hc : ((pyRound (q * 100) : ℚ)) ≤ 71 := by
      have : pyRound (q * 100) ≤ 71 := by omega
      exact_mod_cast this
    rw [div_le_one (by norm_num : (0:ℚ) < 100)]
    linarith

/-! ## Claim C9 -/

/-- C9 counterexample: at F0 = 141 Hz the code returns confidence
`round(0.7 × (185−141)/45, 2) = 0.68`, while the claim's reference
definition — confidence exactly `0.7 ×` the larger score — gives
`154/225 ≈ 0.6844`; the two classifiers differ at this pitch. -/
theorem classify_gender_C9_counterexample :
    (classify_gender (some 141)).confidence = 17/25 ∧
    (classify_gender_claimC9 (some 141)).confidence = 154/225 ∧
    classify_gender (some 141) ≠ classify_gender_claimC9 (some 141) := by
  have h1 : (classify_gender (some 141)).confidence = 17/25 := by
    norm_num [classify_gender, pyRound2, pyRound1, pyRound, Rat.floor_def']
  have h2 : (classify_gender_claimC9 (some 141)).confidence = 154/225 := by
    norm_num [classify_gender_claimC9]
  refine ⟨h1, h2, fun h => ?_⟩
  have h3 := congrArg GenderResult.confidence h
  rw [h1, h2] at h3
  norm_num at h3

/-- C9 amended: gender classification from an estimated pitch equals the
spec's reference definition with the overlap-zone confidence rounded to
two decimals (as `round(x, 2)` in the code does); in every case the
returned confidence lies in `[0, 1]`, and a missing pitch yields
`"unknown"` with confidence 0. -/
theorem classify_gender_C9 (pitch_hz : Option ℚ) :
    classify_gender pitch_hz = classify_gender_specRounded pitch_hz ∧
    0 ≤ (classify_gender pitch_hz).confidence ∧
    (classify_gender pitch_hz).confidence ≤ 1 ∧
    classify_gender none = ⟨"unknown", 0, none⟩ := by
  refine ⟨rfl, ?_, ?_, rfl⟩
  · match pitch_hz with
    | none => norm_num [classify_gender]
    | some p =>
      simp only [classify_gender]
      split_ifs with h1 h2 h3
      · refine le_min (by norm_num) ?_
        have : (0:ℚ) ≤ (140 - p) / 55 := by
          apply div_nonneg (by linarith) (by norm_num)
        linarith
      · refine le_min (by norm_num) ?_
        have : (0:ℚ) ≤ (p - 185) / 70 := by
          apply div_nonneg (by linarith) (by norm_num)
        linarith
      · refine (pyRound2_of_le _ ?_ ?_).1
        · apply mul_nonneg ?_ (by norm_num)
          apply div_nonneg (by linarith) (by norm_num)
        · have hs : (185 - p) / 45 ≤ 1 := by
            rw [div_le_one (by norm_num : (0:ℚ) < 45)]
            linarith
          nlinarith [hs]
      · refine (pyRound2_of_le _ ?_ ?_).1
        · apply mul_nonneg ?_ (by norm_num)
          apply div_nonneg (by linarith) (by norm_num)
        · have hs : (p - 140) / 45 ≤ 1 := by
            rw [div_le_one (by norm_num : (0:ℚ) < 45)]
            linarith
          nlinarith [hs]
  · match pitch_hz with
    | none => norm_num [classify_gender]
    | some p =>
      simp only [classify_gender]
      split_ifs with h1 h2 h3
      · exact min_le_left _ _
      · exact min_le_left _ _
      · refine (pyRound2_of_le _ ?_ ?_).2.trans (by norm_num)
        · apply mul_nonneg ?_ (by norm_num)
          apply div_nonneg (by linarith) (by norm_num)
        · have hs : (185 - p) / 45 ≤ 1 := by
            rw [div_le_one (by norm_num : (0:ℚ) < 45)]
            linarith
          nlinarith [hs]
      · refine (pyRound2_of_le _ ?_ ?_).2.trans (by norm_num)
        · apply mul_nonneg ?_ (by norm_num)
          apply div_nonneg (by linarith) (by norm_num)
        · have hs : (p - 140) / 45 ≤ 1 := by
            rw [div_le_one (by norm_num : (0:ℚ) < 45)]
            linarith
          nlinarith [hs]

/-! ## Claim C10 -/

/-- C10 counterexample: `get_voice` is not total.  For the language code
`"zz"` (matched neither exactly nor by base language) and the gender
string `"other"`, the final branch `VOICE_MAP["en"][gender]` raises
`KeyError` (modelled as `none`), so no voice name is returned. -/
theorem get_voice_C10_counterexample :
    get_voice "zz" "other" = none ∧
    voiceMapGet (pyLower "zz") = none ∧
    voiceMapGet (baseLang (pyLower "zz")) = none := by decide

/-- C10 amended: voice lookup resolves by exact (lowercased) language
match first, then by the base language before the hyphen, then defaults to
English; for a matched language a gender key other than `"male"` falls
back to the `"female"` voice; and the lookup returns a voice for every
language code provided the gender is `"male"` or `"female"` — for any
other gender string on an unmatched language the English default indexing
raises `KeyError`. -/
theorem get_voice_C10 (language_code gender : String) :
    (∀ p, voiceMapGet (pyLower language_code) = some p →
      get_voice language_code gender = some (pairGet p gender)) ∧
    (∀ p, voiceMapGet (pyLower language_code) = none →
      voiceMapGet (baseLang (pyLower language_code)) = some p →
      get_voice language_code gender = some (pairGet p gender)) ∧
    (∀ p : VoicePair, gender ≠ "male" → pairGet p gender = p.female) ∧
    (gender = "male" ∨ gender = "female" →
      (get_voice language_code gender).isSome = true) := by
  refine ⟨?_, ?_, ?_, ?_⟩
  · intro p hp
    simp only [get_voice, hp]
  · intro p h0 hp
    simp only [get_voice, h0, hp]
  · intro p hg
    unfold pairGet
    rw [if_neg hg]
  · intro hg
    simp only [get_voice]
    cases hm : voiceMapGet (pyLower language_code) with
    | some p => simp
    | none =>
      cases hb : voiceMapGet (baseLang (pyLower language_code)) with
      | some p => simp
      | none =>
        have he : voiceMapGet "en" =
            some ⟨"en-US-GuyNeural", "en-US-JennyNeural"⟩ := by decide
        rw [he]
        rcases hg with hg | hg <;> simp [hg]

/-- C10 witness: the amended lookup rules exercised at concrete inputs —
`"fr"` with the unknown gender `"robot"` resolves to the French female
voice, and `"zz"` with `"male"` still returns a voice. -/
theorem get_voice_C10_witness :
    voiceMapGet (pyLower "fr") =
      some ⟨"fr-FR-HenriNeural", "fr-FR-DeniseNeural"⟩ ∧
    get_voice "fr" "robot" =
      some (pairGet ⟨"fr-FR-HenriNeural", "fr-FR-DeniseNeural"⟩ "robot") ∧
    pairGet ⟨"fr-FR-HenriNeural", "fr-FR-DeniseNeural"⟩ "robot" =
      "fr-FR-DeniseNeural" ∧
    (get_voice "zz" "male").isSome = true :=
  ⟨by decide,
   (get_voice_C10 "fr" "robot").1 _ (by decide),
   (get_voice_C10 "fr" "robot").2.2.1 _ (by decide),
   (get_voice_C10 "zz" "male").2.2.2 (Or.inl rfl)⟩

/-! ## Claim C1 -/

/-- C1: in assembly (segments processed sorted by start, cursor from 0,
silence rendering succeeding), a segment starting past the cursor gets a
gap silence of `start − t` prepended before its body; a segment whose
audio file is missing contributes a silence of its span `end − start` in
its place; the cursor always advances to the segment's end; and when the
final cursor is still short of `total_duration` a trailing silence of the
difference is appended. -/
theorem assemble_timing_C1 (env : AsmEnv) (hs : env.silence_ok = true)
    (st : List Piece × ℚ) (seg : Seg) (segs : List Seg) (total : ℚ) :
    (stepSeg env st seg).2 = seg.end_ ∧
    (seg.start > st.2 →
      (stepSeg env st seg).1 =
        st.1 ++ Piece.silence (seg.start - st.2) :: segBody env seg) ∧
    (env.fileExists seg.audio_path = false →
      segBody env seg = [Piece.silence (seg.end_ - seg.start)]) ∧
    (segs ≠ [] → (runAssemble env segs).2 < total →
      assemble_segments_with_timing env segs total =
        some ((runAssemble env segs).1 ++
          [Piece.silence (total - (runAssemble env segs).2)])) := by
  refine ⟨rfl, ?_, ?_, ?_⟩
  · intro h
    simp [stepSeg, hs, h]
  · intro h
    simp [segBody, hs, h]
  · intro hne hlt
    simp [assemble_segments_with_timing, hs, hne, hlt]

/-- The final cursor of the one-segment run sits at 2 s, short of 5 s. -/
theorem runAssemble_missing_cursor :
    (runAssemble asmEnvMissing [⟨1, 2, "a"⟩]).2 < 5 := by
  norm_num [runAssemble, stepSeg]

/-- C1 witness: the theorem applied to a run with one segment `[1, 2]`
whose audio file is missing, total duration 5. -/
theorem assemble_timing_C1_witness :
    asmEnvMissing.silence_ok = true ∧
    (1 : ℚ) > 0 ∧
    asmEnvMissing.fileExists "a" = false ∧
    ((stepSeg asmEnvMissing ([], 0) ⟨1, 2, "a"⟩).2 = (2 : ℚ) ∧
     (stepSeg asmEnvMissing ([], 0) ⟨1, 2, "a"⟩).1 =
       [] ++ Piece.silence ((1 : ℚ) - 0) ::
         segBody asmEnvMissing ⟨1, 2, "a"⟩ ∧
     segBody asmEnvMissing ⟨1, 2, "a"⟩ =
       [Piece.silence ((2 : ℚ) - 1)] ∧
     assemble_segments_with_timing asmEnvMissing [⟨1, 2, "a"⟩] 5 =
       some ((runAssemble asmEnvMissing [⟨1, 2, "a"⟩]).1 ++
         [Piece.silence (5 - (runAssemble asmEnvMissing [⟨1, 2, "a"⟩]).2)])) :=
  ⟨rfl, by decide, rfl,
   (assemble_timing_C1 asmEnvMissing rfl ([], 0) ⟨1, 2, "a"⟩
      [⟨1, 2, "a"⟩] 5).1,
   (assemble_timing_C1 asmEnvMissing rfl ([], 0) ⟨1, 2, "a"⟩
      [⟨1, 2, "a"⟩] 5).2.1 (by decide),
   (assemble_timing_C1 asmEnvMissing rfl ([], 0) ⟨1, 2, "a"⟩
      [⟨1, 2, "a"⟩] 5).2.2.1 rfl,
   (assemble_timing_C1 asmEnvMissing rfl ([], 0) ⟨1, 2, "a"⟩
      [⟨1, 2, "a"⟩] 5).2.2.2 (by decide) runAssemble_missing_cursor⟩

/-! ## Claim C2 -/

/-- C2: a present clip is stretched only when its measured duration is
more than 0.3 s off the segment span (otherwise the original clip is
used); the rubberband stretch ratio is clamped to `[0.7, 1.5]` and the
ffmpeg fallback speed factor to `[0.5, 2.0]`; for positive durations the
success of the adjustment never depends on the requested target (so
clamping cannot fail a segment); and when the adjustment fails the
original unstretched clip is appended instead of the adjusted one. -/
theorem assemble_stretch_C2 (env : AsmEnv) (seg : Seg) (path : String)
    (current target t1 t2 : ℚ) :
    (env.fileExists seg.audio_path = true →
      |env.duration seg.audio_path - (seg.end_ - seg.start)| ≤ 3/10 →
      segBody env seg = [Piece.clip seg.audio_path]) ∧
    (7/10 ≤ stretch_ratio_used current target ∧
      stretch_ratio_used current target ≤ 3/2) ∧
    (1/2 ≤ speed_factor_used current target ∧
      speed_factor_used current target ≤ 2) ∧
    (0 < t1 → 0 < t2 →
      adjust_segment_speed env path t1 = adjust_segment_speed env path t2) ∧
    (env.fileExists seg.audio_path = true →
      |env.duration seg.audio_path - (seg.end_ - seg.start)| > 3/10 →
      adjust_segment_speed env seg.audio_path (seg.end_ - seg.start) = false →
      segBody env seg = [Piece.clip seg.audio_path]) ∧
    (env.fileExists seg.audio_path = true →
      |env.duration seg.audio_path - (seg.end_ - seg.start)| > 3/10 →
      adjust_segment_speed env seg.audio_path (seg.end_ - seg.start) = true →
      segBody env seg = [Piece.adjusted seg.audio_path]) := by
  refine ⟨?_, ⟨le_max_left _ _, ?_⟩, ⟨le_max_left _ _, ?_⟩, ?_, ?_, ?_⟩
  · intro hf hle
    simp [segBody, hf, not_lt.mpr hle]
  · exact max_le (by norm_num) (min_le_left _ _)
  · exact max_le (by norm_num) (min_le_left _ _)
  · intro h1 h2
    simp [adjust_segment_speed, adjust_segment_speed_rubberband,
      adjust_segment_speed_ffmpeg, not_le.mpr h1, not_le.mpr h2]
  · intro hf hgt hfail
    simp [segBody, hf, hgt, hfail]
  · intro hf hgt hok
    simp [segBody, hf, hgt, hok]

/-- A 5 s clip fits a 5 s span within 0.3 s. -/
theorem asmEnvGood_good_fit :
    |asmEnvGood.duration "a" - ((5 : ℚ) - 0)| ≤ 3/10 := by
  norm_num [asmEnvGood]

/-- A 5 s clip is more than 0.3 s off a 1 s span. -/
theorem asmEnvGood_bad_fit :
    |asmEnvGood.duration "a" - ((1 : ℚ) - 0)| > 3/10 := by
  norm_num [asmEnvGood]

/-- Same measurement in the failing environment. -/
theorem asmEnvBad_bad_fit :
    |asmEnvBad.duration "a" - ((1 : ℚ) - 0)| > 3/10 := by
  norm_num [asmEnvBad]

/-- In `asmEnvBad` both stretch conversion calls fail. -/
theorem asmEnvBad_adjust_fails :
    adjust_segment_speed asmEnvBad "a" ((1 : ℚ) - 0) = false := by
  norm_num [adjust_segment_speed, adjust_segment_speed_rubberband,
    adjust_segment_speed_ffmpeg, asmEnvBad]

/-- In `asmEnvGood` the adjustment succeeds. -/
theorem asmEnvGood_adjust_ok :
    adjust_segment_speed asmEnvGood "a" ((1 : ℚ) - 0) = true := by
  norm_num [adjust_segment_speed, adjust_segment_speed_rubberband,
    adjust_segment_speed_ffmpeg, asmEnvGood]

/-- C2 witness: good fit keeps the original clip; a failed stretch falls
back to the original clip; a successful stretch appends the adjusted
clip; and success is target-independent at 1 s vs 2 s. -/
theorem assemble_stretch_C2_witness :
    asmEnvGood.fileExists "a" = true ∧
    (segBody asmEnvGood ⟨0, 5, "a"⟩ = [Piece.clip "a"] ∧
     adjust_segment_speed asmEnvGood "x" 1 =
       adjust_segment_speed asmEnvGood "x" 2 ∧
     segBody asmEnvBad ⟨0, 1, "a"⟩ = [Piece.clip "a"] ∧
     segBody asmEnvGood ⟨0, 1, "a"⟩ = [Piece.adjusted "a"]) :=
  ⟨rfl,
   (assemble_stretch_C2 asmEnvGood ⟨0, 5, "a"⟩ "x" 1 1 1 2).1 rfl
     asmEnvGood_good_fit,
   (assemble_stretch_C2 asmEnvGood ⟨0, 5, "a"⟩ "x" 1 1 1 2).2.2.2.1
     (by decide) (by decide),
   (assemble_stretch_C2 asmEnvBad ⟨0, 1, "a"⟩ "x" 1 1 1 2).2.2.2.2.1 rfl
     asmEnvBad_bad_fit asmEnvBad_adjust_fails,
   (assemble_stretch_C2 asmEnvGood ⟨0, 1, "a"⟩ "x" 1 1 1 2).2.2.2.2.2 rfl
     asmEnvGood_bad_fit asmEnvGood_adjust_ok⟩

/-! ## Claim C3 -/

/-- When every translation call succeeds the batch loop never aborts. -/
theorem ttLoop_ok_of_all_some (call : Nat → Option (List String))
    (h : ∀ i, (call i).isSome) :
    ∀ (bs : List (List String)) (acc : List String) (failed idx : Nat),
      ∃ out, ttLoop call bs acc failed idx = .ok out := by
  intro bs
  induction bs with
  | nil => exact fun acc failed idx => ⟨acc, rfl⟩
  | cons b bs ih =>
    intro acc failed idx
    obtain ⟨ts, hts⟩ := Option.isSome_iff_exists.mp (h idx)
    rw [ttLoop, hts]
    exact ih (acc ++ ts) failed (idx + 1)

/-- C3 counterexample: with a single batch (a single non-blank segment)
whose first call and single retry both fail, `translate_timed_segments`
aborts fatally — although only one batch exists, so three consecutive
batch failures are impossible.  The preserved `partial_count` is 0. -/
theorem translate_fatal_C3_counterexample :
    translate_timed_segments callAllFail [⟨"hi", 0, 1⟩] = .fatal 0 ∧
    (chunk 20 ["hi"]).length = 1 := by decide

/-- C3 amended: the batch loop aborts fatally either when the cumulative
count of failed batches reaches 3 — the counter is never reset by a
successful batch — or earlier, when a failed batch's single immediate
retry also fails; on a fatal abort the result's `partial_count` is the
number of translations accumulated from the batches completed so far; and
when every call succeeds the loop never aborts. -/
theorem translate_fatal_C3 (call : Nat → Option (List String))
    (b : List String) (bs : List (List String)) (acc ts : List String)
    (failed idx : Nat) :
    (call idx = some ts →
      ttLoop call (b :: bs) acc failed idx =
        ttLoop call bs (acc ++ ts) failed (idx + 1)) ∧
    (call idx = none → 2 ≤ failed →
      ttLoop call (b :: bs) acc failed idx = .fatal acc.length) ∧
    (call idx = none → call (idx + 1) = none →
      ttLoop call (b :: bs) acc failed idx = .fatal acc.length) ∧
    (call idx = none → call (idx + 1) = some ts → failed < 2 →
      ttLoop call (b :: bs) acc failed idx =
        ttLoop call bs (acc ++ ts) (failed + 1) (idx + 2)) ∧
    ((∀ i, (call i).isSome) →
      ∃ out, ttLoop call (b :: bs) acc failed idx = .ok out) := by
  refine ⟨?_, ?_, ?_, ?_, ?_⟩
  · intro h
    rw [ttLoop, h]
  · intro h h2
    rw [ttLoop, h]
    simp only [if_pos (by omega : failed + 1 ≥ 3)]
  · intro h h2
    rw [ttLoop, h]
    by_cases hf : failed + 1 ≥ 3
    · rw [if_pos hf]
    · rw [if_neg hf, h2]
  · intro h h2 hf
    rw [ttLoop, h, if_neg (by omega : ¬failed + 1 ≥ 3), h2]
  · intro h
    exact ttLoop_ok_of_all_some call h (b :: bs) acc failed idx

/-- C3 witness: the amended abort rules at concrete runs — a third
cumulative failure aborts with the accumulated count 2; a first-batch
double failure aborts with count 0; a failed-then-retried batch continues
with the counter bumped and not reset; an all-success run returns `ok`. -/
theorem translate_fatal_C3_witness :
    callAllFail 4 = none ∧
    ttLoop callAllFail [["b"]] ["p", "q"] 2 4 = .fatal 2 ∧
    ttLoop callAllFail [["b"]] [] 0 0 = .fatal 0 ∧
    ttLoop callEvenFail [["b"], ["c"]] [] 0 0 =
      ttLoop callEvenFail [["c"]] ["y"] 1 2 ∧
    (∃ out, ttLoop callAllOk [["b"]] [] 0 0 = .ok out) :=
  ⟨rfl,
   (translate_fatal_C3 callAllFail ["b"] [] ["p", "q"] [] 2 4).2.1 rfl
     (by decide),
   (translate_fatal_C3 callAllFail ["b"] [] [] [] 0 0).2.2.1 rfl rfl,
   (translate_fatal_C3 callEvenFail ["b"] [["c"]] [] ["y"] 0 0).2.2.2.1
     rfl (by decide) (by decide),
   (translate_fatal_C3 callAllOk ["b"] [] [] [] 0 0).2.2.2.2
     (fun _ => rfl)⟩

/-! ## Claim C4 -/

/-- C4 counterexample: for a batch of 2 input segments whose model output
is the plain line `"hello"`, the numbered parse yields 0 items, and the
fallback line-split recovers only 1 translation — not one per input
segment. -/
theorem translate_parse_C4_counterexample :
    translate_parse "hello" 2 = ["hello"] ∧
    (translate_parse "hello" 2).length ≠ 2 := by decide

/-- C4 amended: the numbered output is parsed into `[n]`-prefixed items
and used when that parse yields exactly the input count; otherwise the
line-split fallback with numeric-prefix re-stripping is used instead —
but the returned count equals the input count exactly when the numbered
parse or the fallback yields that count; it is not guaranteed in
general. -/
theorem translate_parse_C4 (content : String) (n : Nat) :
    ((findall_numbered (pyStrip content)).length = n →
      translate_parse content n = findall_numbered (pyStrip content)) ∧
    ((findall_numbered (pyStrip content)).length ≠ n →
      translate_parse content n = fallback_parse (pyStrip content)) ∧
    ((translate_parse content n).length = n ↔
      (findall_numbered (pyStrip content)).length = n ∨
      (fallback_parse (pyStrip content)).length = n) := by
  refine ⟨?_, ?_, ?_⟩
  · intro h
    simp [translate_parse, h]
  · intro h
    simp [translate_parse, h]
  · by_cases h : (findall_numbered (pyStrip content)).length = n
    · simp [translate_parse, h]
    · simp [translate_parse, h]

/-- C4 witness: a well-formed two-item numbered output is taken from the
numbered parse; the single-line output falls back to the line-split. -/
theorem translate_parse_C4_witness :
    (findall_numbered (pyStrip "[1] hi\n[2] yo")).length = 2 ∧
    translate_parse "[1] hi\n[2] yo" 2 =
      findall_numbered (pyStrip "[1] hi\n[2] yo") ∧
    (findall_numbered (pyStrip "hello")).length ≠ 2 ∧
    translate_parse "hello" 2 = fallback_parse (pyStrip "hello") :=
  ⟨by decide,
   (translate_parse_C4 "[1] hi\n[2] yo" 2).1 (by decide),
   by decide,
   (translate_parse_C4 "hello" 2).2.1 (by decide)⟩

/-! ## Claim C5 -/

/-- C5 counterexample: for a first render of 5 s against a 3 s target the
code re-renders at `+66%` — `int((5/3 − 1)·100)` truncates `66.67` toward
zero — while the claim's `round` would give `+67%`. -/
theorem segment_rates_C5_counterexample :
    segment_renders "+0%" 5 3 = ["+0%", "+66%"] ∧
    combine_rates "+0%" (pyRound ((5/3 - 1) * 100)) = "+67%" ∧
    segment_renders "+0%" 5 3 ≠
      ["+0%", combine_rates "+0%" (pyRound ((5/3 - 1) * 100))] := by
  have h66 : rate_adjustment 5 3 = 66 := by
    norm_num [rate_adjustment, pyInt, Rat.floor_def']
  have hr : segment_renders "+0%" 5 3 =
      ["+0%", combine_rates "+0%" (rate_adjustment 5 3)] := by
    norm_num [segment_renders]
  have h67 : pyRound ((5/3 - 1) * 100 : ℚ) = 67 := by
    norm_num [pyRound, Rat.floor_def']
  refine ⟨?_, ?_, ?_⟩
  · rw [hr, h66]; decide
  · rw [h67]; decide
  · rw [hr, h66, h67]; decide

/-- C5 amended: when the first render is more than 0.3 s off a positive
target, the segment is re-rendered exactly once, at the emotion base rate
plus `int((actual/target − 1)·100)` percentage points — truncation toward
zero, not rounding — with the combined rate clamped to `[−50, +100]` and
formatted with an explicit sign; within 0.3 s there is no re-render. -/
theorem segment_rates_C5 (base : String) (actual target other : ℚ)
    (h1 : 0 < target) (h2 : 0 < actual)
    (h3 : 3/10 < |actual - target|) :
    segment_renders base actual target =
      [base, combine_rates base (rate_adjustment actual target)] ∧
    (segment_renders base actual target).length = 2 ∧
    -50 ≤ combined_rate base (rate_adjustment actual target) ∧
    combined_rate base (rate_adjustment actual target) ≤ 100 ∧
    combine_rates base (rate_adjustment actual target) =
      (if 0 ≤ combined_rate base (rate_adjustment actual target) then
        "+" ++ toString (combined_rate base (rate_adjustment actual target)) ++ "%"
      else toString (combined_rate base (rate_adjustment actual target)) ++ "%") ∧
    (¬ 3/10 < |other - target| →
      segment_renders base other target = [base]) := by
  have e1 : segment_renders base actual target =
      [base, combine_rates base (rate_adjustment actual target)] := by
    simp [segment_renders, h1, h2, h3]
  refine ⟨e1, by rw [e1]; rfl, le_max_left _ _,
    max_le (by norm_num) (min_le_left _ _), ?_, ?_⟩
  · unfold combine_rates
    rfl
  · intro h
    simp [segment_renders, h]

/-- Durations 5 s and 3 s differ by more than 0.3 s. -/
theorem q_gap_5_3 : (3 : ℚ)/10 < |5 - 3| := by norm_num

/-- Duration 3 s is within 0.3 s of 3 s. -/
theorem q_gap_3_3 : ¬ (3 : ℚ)/10 < |3 - 3| := by norm_num

/-- C5 witness: the amended re-render rule at 5 s actual vs 3 s target
(re-render at the truncated, clamped rate) and at a perfect fit (single
render). -/
theorem segment_rates_C5_witness :
    (0 : ℚ) < 3 ∧ (0 : ℚ) < 5 ∧
    segment_renders "+0%" 5 3 =
      ["+0%", combine_rates "+0%" (rate_adjustment 5 3)] ∧
    (segment_renders "+0%" 5 3).length = 2 ∧
    -50 ≤ combined_rate "+0%" (rate_adjustment 5 3) ∧
    combined_rate "+0%" (rate_adjustment 5 3) ≤ 100 ∧
    segment_renders "+0%" 3 3 = ["+0%"] :=
  ⟨by decide, by decide,
   (segment_rates_C5 "+0%" 5 3 3 (by decide) (by decide) q_gap_5_3).1,
   (segment_rates_C5 "+0%" 5 3 3 (by decide) (by decide) q_gap_5_3).2.1,
   (segment_rates_C5 "+0%" 5 3 3 (by decide) (by decide) q_gap_5_3).2.2.1,
   (segment_rates_C5 "+0%" 5 3 3 (by decide) (by decide) q_gap_5_3).2.2.2.1,
   (segment_rates_C5 "+0%" 5 3 3 (by decide) (by decide) q_gap_5_3).2.2.2.2.2
     q_gap_3_3⟩

/-! ## Claim C6 -/

/-- C6 counterexample: five non-empty segments of which exactly one fails
means 80% of the non-empty segments produced audio — the claim calls that
success — but the code's strict check `failed < len * 0.2` (1 < 1) makes
the stage fail. -/
theorem segments_success_C6_counterexample :
    generate_segments_audio_success outcomeNot0 ["a", "b", "c", "d", "e"]
      = false ∧
    successful_count outcomeNot0 ["a", "b", "c", "d", "e"] = 4 ∧
    failed_count outcomeNot0 ["a", "b", "c", "d", "e"] = 1 ∧
    (["a", "b", "c", "d", "e"] : List String).length = 5 := by decide

/-- Complementary counts: every enumerated segment either succeeds or
fails. -/
theorem failed_add_successful (outcome : Nat → Bool) (texts : List String) :
    failed_count outcome texts + successful_count outcome texts =
      texts.length := by
  unfold failed_count successful_count
  have h : ∀ l : List (Nat × String),
      List.countP (fun p => !seg_ok outcome p.1 p.2) l +
        List.countP (fun p => seg_ok outcome p.1 p.2) l = l.length := by
    intro l
    induction l with
    | nil => rfl
    | cons a l ih =>
      by_cases hc : seg_ok outcome a.1 a.2 = true
      · simp [List.countP_cons, hc]
        omega
      · have h2 : seg_ok outcome a.1 a.2 = false := by
          simpa using hc
        simp [List.countP_cons, h2]
        omega
  rw [h texts.enum, List.enum_length]

/-- C6 amended: the stage reports success iff strictly more than 80% of
all segments produced an audio file — equivalently, strictly fewer than
20% failed — where a segment whose stripped text is empty counts as a
failure. -/
theorem segments_success_C6 (outcome : Nat → Bool) (texts : List String)
    (i : Nat) (t : String) :
    (generate_segments_audio_success outcome texts = true ↔
      4 * texts.length < 5 * successful_count outcome texts) ∧
    (pyStrip t = "" → seg_ok outcome i t = false) := by
  constructor
  · unfold generate_segments_audio_success
    rw [decide_eq_true_eq]
    have h := failed_add_successful outcome texts
    omega
  · intro h
    simp [seg_ok, h]

/-- C6 witness: an empty-text segment counts as failed. -/
theorem segments_success_C6_witness :
    pyStrip " " = "" ∧ seg_ok outcomeNot0 7 " " = false :=
  ⟨rfl, (segments_success_C6 outcomeNot0 [] 7 " ").2 rfl⟩

/-! ## Claim C7 -/

/-- C7: once the consecutive-failure count has reached 3, a
`generate_audio` call never uses Edge TTS, leaves the counter unchanged,
ignores the Edge oracle entirely (no probing), and serves the call from
gTTS when gTTS is available and succeeds; any call answered by Edge
resets the counter to 0; and a below-threshold call whose Edge attempts
all fail increments the counter by one. -/
theorem provider_fallback_C7 (gtts_available : Bool) (failures : Nat)
    (env env2 : TtsCallEnv) (max_retries : Nat) :
    (3 ≤ failures →
      (generate_audio gtts_available failures env max_retries).1 ≠ .edge ∧
      (generate_audio gtts_available failures env max_retries).2 =
        failures ∧
      (env2.gtts_ok = env.gtts_ok →
        generate_audio gtts_available failures env2 max_retries =
          generate_audio gtts_available failures env max_retries) ∧
      (gtts_available = true → env.gtts_ok = true →
        (generate_audio gtts_available failures env max_retries).1 =
          .gtts)) ∧
    ((generate_audio gtts_available failures env max_retries).1 = .edge →
      (generate_audio gtts_available failures env max_retries).2 = 0) ∧
    (failures < 3 → edge_succeeds env max_retries = false →
      (generate_audio gtts_available failures env max_retries).2 =
        failures + 1) := by
  refine ⟨fun h => ⟨?_, ?_, ?_, ?_⟩, ?_, ?_⟩
  · simp only [generate_audio, if_neg (by omega : ¬¬failures ≥ 3)]
    cases hb : gtts_available && env.gtts_ok <;> simp [hb]
  · simp only [generate_audio, if_neg (by omega : ¬¬failures ≥ 3)]
    cases hb : gtts_available && env.gtts_ok <;> simp [hb]
  · intro hg
    simp only [generate_audio, if_neg (by omega : ¬¬failures ≥ 3), hg]
  · intro ha hg
    simp only [generate_audio, if_neg (by omega : ¬¬failures ≥ 3), ha, hg]
    simp
  · by_cases h : failures ≥ 3
    · simp only [generate_audio, if_neg (by omega : ¬¬failures ≥ 3)]
      cases hb : gtts_available && env.gtts_ok <;> simp [hb]
    · simp only [generate_audio, if_pos (by omega : ¬failures ≥ 3)]
      cases he : edge_succeeds env max_retries
      · cases hb : gtts_available && env.gtts_ok <;> simp [hb]
      · exact fun _ => rfl
  · intro h he
    simp only [generate_audio, if_pos (by omega : ¬failures ≥ 3), he]
    cases hb : gtts_available && env.gtts_ok <;> simp [hb]

/-- C7 witness: at a counter of 3 the call is served by gTTS with the
counter untouched even when the Edge oracle would have succeeded; an
Edge-served call resets the counter; a below-threshold all-fail call
bumps it. -/
theorem provider_fallback_C7_witness :
    (3 : Nat) ≤ 3 ∧
    (generate_audio true 3 ttsEdgeFail 3).1 ≠ .edge ∧
    (generate_audio true 3 ttsEdgeFail 3).2 = 3 ∧
    generate_audio true 3 ttsEdgeOk 3 =
      generate_audio true 3 ttsEdgeFail 3 ∧
    (generate_audio true 3 ttsEdgeFail 3).1 = .gtts ∧
    (generate_audio true 0 ttsEdgeOk 3).1 = .edge ∧
    (generate_audio true 0 ttsEdgeOk 3).2 = 0 ∧
    (generate_audio true 0 ttsEdgeFail 3).2 = 0 + 1 :=
  ⟨by decide,
   ((provider_fallback_C7 true 3 ttsEdgeFail ttsEdgeOk 3).1
     (by decide)).1,
   ((provider_fallback_C7 true 3 ttsEdgeFail ttsEdgeOk 3).1
     (by decide)).2.1,
   ((provider_fallback_C7 true 3 ttsEdgeFail ttsEdgeOk 3).1
     (by decide)).2.2.1 rfl,
   ((provider_fallback_C7 true 3 ttsEdgeFail ttsEdgeOk 3).1
     (by decide)).2.2.2 rfl rfl,
   by decide,
   (provider_fallback_C7 true 0 ttsEdgeOk ttsEdgeOk 3).2.1 (by decide),
   (provider_fallback_C7 true 0 ttsEdgeFail ttsEdgeOk 3).2.2 (by decide)
     (by decide)⟩

/-! ## Claim C8 -/

/-- C8 counterexample: the Japanese catalog has a single male voice; two
distinct speakers `"A"` and `"B"` in the same job and language are both
assigned `"ja-JP-KeitaNeural"` — assigned voices are not unique per
`(speaker_id, language)` once the gender's catalog is exhausted. -/
theorem voice_unique_C8_counterexample :
    (get_voice_for_speaker VoiceAssigner_init "A" "ja" "male" 200
      "general").1.voice = "ja-JP-KeitaNeural" ∧
    (get_voice_for_speaker
      (get_voice_for_speaker VoiceAssigner_init "A" "ja" "male" 200
        "general").2
      "B" "ja" "male" 200 "general").1.voice = "ja-JP-KeitaNeural" ∧
    ("A" : String) ≠ "B" := by decide

/-- A cached association survives appending new entries. -/
theorem alistGet_append_left (m m2 : List (String × String)) (k v : String)
    (h : alistGet m k = some v) : alistGet (m ++ m2) k = some v := by
  unfold alistGet at h ⊢
  rw [List.find?_append]
  cases hf : m.find? (fun p => p.1 = k) with
  | none => rw [hf] at h; simp at h
  | some p =>
    rw [hf] at h
    simpa using h

/-- Freshly assigned entries only extend the speaker map. -/
theorem assignFresh_map_mono (st : VoiceAssignerState)
    (key lang_code : String) (voices : List CatVoice) (style : String)
    (k v : String) (h : alistGet st.speaker_voice_map k = some v) :
    alistGet (assignFresh st key lang_code voices
      style).2.speaker_voice_map k = some v := by
  unfold assignFresh
  cases hsel : selectVoice voices (usedFor st.used_voices lang_code)
      style with
  | none => exact h
  | some s => exact alistGet_append_left _ _ _ _ h

/-- C8 amended: voice assignment is stable — a cached `(speaker_id,
language)` pair is always answered from the cache with the state
untouched, and cache entries are never removed by later assignments — and
it is unique only while an unused voice compatible with the requested
gender and style remains: whenever such a voice exists, the selected
voice is one not used before in that language. -/
theorem voice_assign_C8 (st : VoiceAssignerState)
    (speaker_id language gender : String) (pitch : ℚ) (style : String)
    (k v : String) (voices : List CatVoice) (used : List String)
    (sty : String) :
    (alistGet st.speaker_voice_map (cacheKey speaker_id language) = some v →
      get_voice_for_speaker st speaker_id language gender pitch style =
        (⟨v, true, false⟩, st)) ∧
    (alistGet st.speaker_voice_map k = some v →
      alistGet (get_voice_for_speaker st speaker_id language gender pitch
        style).2.speaker_voice_map k = some v) ∧
    ((voices.find? (fun cv => cv.name ∉ used ∧
        (sty = "general" ∨ cv.style = sty))).isSome →
      ∀ s, selectVoice voices used sty = some s → s ∉ used) := by
  refine ⟨?_, ?_, ?_⟩
  · intro h
    simp only [get_voice_for_speaker, h]
  · intro h
    simp only [get_voice_for_speaker]
    cases hc : alistGet st.speaker_voice_map
        (cacheKey speaker_id language) with
    | some w => exact h
    | none => exact assignFresh_map_mono _ _ _ _ _ _ _ h
  · intro hf s hs
    obtain ⟨cv, hcv⟩ := Option.isSome_iff_exists.mp hf
    unfold selectVoice at hs
    rw [hcv] at hs
    have hp := List.find?_some hcv
    simp only [decide_eq_true_eq] at hp
    cases hs
    exact hp.1

/-- C8 witness: the amended rules at concrete states — the cached pair
`("A", "ja")` is answered from the cache with the state untouched, the
cache entry survives a later assignment for speaker `"B"`, and with an
unused style-compatible voice available the selection picks an unused
one. -/
theorem voice_assign_C8_witness :
    alistGet stCachedJa.speaker_voice_map (cacheKey "A" "ja") =
      some "ja-JP-KeitaNeural" ∧
    get_voice_for_speaker stCachedJa "A" "ja" "male" 200 "general" =
      (⟨"ja-JP-KeitaNeural", true, false⟩, stCachedJa) ∧
    alistGet (get_voice_for_speaker stCachedJa "B" "ja" "male" 200
      "general").2.speaker_voice_map (cacheKey "A" "ja") =
      some "ja-JP-KeitaNeural" ∧
    "en-US-JennyNeural" ∉ (["used-one"] : List String) :=
  ⟨by decide,
   (voice_assign_C8 stCachedJa "A" "ja" "male" 200 "general"
     (cacheKey "A" "ja") "ja-JP-KeitaNeural" [] [] "general").1
     (by decide),
   (voice_assign_C8 stCachedJa "B" "ja" "male" 200 "general"
     (cacheKey "A" "ja") "ja-JP-KeitaNeural" [] [] "general").2.1
     (by decide),
   (voice_assign_C8 stCachedJa "B" "ja" "male" 200 "general"
     (cacheKey "A" "ja") "ja-JP-KeitaNeural"
     [⟨"en-US-JennyNeural", "general", "adult"⟩] ["used-one"]
     "general").2.2 (by decide) "en-US-JennyNeural" (by decide)⟩

end Rampage
